import Mathlib

/-!
Verification of the real-time synchronization client of the clash-master
dashboard. The definitions below are a shallow embedding of the two source
files the claims concern:

* `apps/web/lib/websocket.ts` — the `useStatsWebSocket` hook (connection
  manager, reconnect backoff, subscription protocol, frame handling);
* the dashboard page component — push/pull arbitration between the
  WebSocket summary feed and the HTTP queries, cache fan-out of pushed
  payloads, and the polling intervals.

Machine integers do not overflow in the modelled code (all counters are
small), so numbers are embedded as `Nat`. JavaScript `undefined` on an
optional field is embedded as `Option.none`; `JSON.stringify` dropping
`undefined`-valued keys is embedded as a `filterMap` over the raw
key/value list of the object literal.
-/

namespace ClashMaster

/-- Connection status of the hook (`websocket.ts` line 5). -/
inductive ConnectionStatus
  | connecting
  | connected
  | disconnected
  | error
deriving DecidableEq, Repr

/-- Country breakdown rows (the shared `CountryStats[]` payload); only
their presence and identity matter to the claims, so a row is a name
with a traffic figure. -/
abbrev CountryBreakdown := List (String × Nat)

/-- Device breakdown rows (the shared `DeviceStats[]` payload). -/
abbrev DeviceBreakdown := List (String × Nat)

/-- Modelled from the spec: the shared `StatsSummary` type (package
`@clashmaster/shared`, whose source is not included) is "a summary
payload, optionally embedding country/device breakdowns".
`totalTraffic` stands for the always-present summary fields; the two
embedded breakdowns are optional. -/
structure StatsSummary where
  totalTraffic : Nat
  countryStats : Option CountryBreakdown
  deviceStats : Option DeviceBreakdown
deriving DecidableEq, Repr

/-- Inbound frame tag (`websocket.ts` line 8). -/
inductive MsgType
  | stats
  | ping
  | pong
deriving DecidableEq, Repr

/-- A parsed inbound frame (`WebSocketMessage`, `websocket.ts` lines 7-12). -/
structure WebSocketMessage where
  type : MsgType
  backendId : Option Nat
  data : Option StatsSummary
  timestamp : String
deriving DecidableEq, Repr

/-- Time window bounds (`TimeRange` from `lib/api`); bounds are embedded
as epoch milliseconds. -/
structure TimeRange where
  start : Nat
  «end» : Nat
deriving DecidableEq, Repr

/-- Reconnect delay cap (`maxReconnectDelayMs`, `websocket.ts` line 114). -/
def maxReconnectDelayMs : Nat := 30000

/-- Backoff delay computed in `ws.onclose` (`websocket.ts` line 209):
`Math.min(3000 * Math.pow(2, reconnectAttemptsRef.current), maxReconnectDelayMs)`. -/
def backoffDelay (attempts : Nat) : Nat :=
  min (3000 * 2 ^ attempts) maxReconnectDelayMs

/-- The mutable backoff bookkeeping: `reconnectAttemptsRef` (line 113). -/
structure BackoffState where
  attempts : Nat
deriving DecidableEq, Repr

/-- Outcome of one connection attempt: `ws.onopen` fired (success) or
`ws.onclose` fired (failure). -/
inductive ConnOutcome
  | success
  | failure
deriving DecidableEq, Repr

/-- Effect of one attempt outcome on the backoff state, and the
reconnect delay it schedules (if any): `onopen` resets the counter
(line 166) and schedules nothing; `onclose` schedules
`backoffDelay attempts` and then increments the counter (lines 209-214). -/
def stepOutcome (s : BackoffState) : ConnOutcome → BackoffState × Option Nat
  | .success => (⟨0⟩, none)
  | .failure => (⟨s.attempts + 1⟩, some (backoffDelay s.attempts))

/-- Transport readiness of a browser WebSocket, as far as the hook
consults it (`readyState` checks on lines 149-150 and 171). -/
inductive ReadyState
  | connecting
  | openSt
  | closing
  | closed
deriving DecidableEq, Repr

/-- A transport handle together with its four handler slots. A `true`
slot means the corresponding handler closure is attached; `cleanup`
nullifies all four (lines 138-141) so a late event finds no handler. -/
structure Socket where
  readyState : ReadyState
  onopen : Bool
  onmessage : Bool
  onclose : Bool
  onerror : Bool
deriving DecidableEq, Repr

/-- The shared mutable state of one `useStatsWebSocket` instance: the
`useState` cells (`status`, `lastMessage`, `latency`) and the refs
(`reconnectTimerRef` as the pending delay, `pingIntervalRef` as a flag,
`lastPingTimeRef`, `reconnectAttemptsRef`, `trackLastMessageRef`,
`wsRef`). -/
structure HookState where
  status : ConnectionStatus
  lastMessage : Option StatsSummary
  latency : Option Nat
  reconnectTimer : Option Nat
  pingInterval : Bool
  lastPingTime : Nat
  reconnectAttempts : Nat
  trackLastMessage : Bool
  socket : Option Socket
deriving DecidableEq, Repr

/-- Callbacks the hook hands to the consumer refs (`onMessageRef`,
`onConnectRef`, `onDisconnectRef`, `onErrorRef`). -/
inductive HookCallback
  | cbMessage (d : StatsSummary)
  | cbConnect
  | cbDisconnect
  | cbError
deriving DecidableEq, Repr

/-- Body of `ws.onopen` (lines 163-176): set status connected, reset the
attempt counter, invoke `onConnect`, start the ping interval. -/
def onOpenEffect (s : HookState) : HookState × List HookCallback :=
  ({ s with status := .connected, reconnectAttempts := 0, pingInterval := true },
   [.cbConnect])

/-- Body of `ws.onmessage` (lines 178-195). `parsed = none` models
`JSON.parse` (or the shape cast) throwing on a malformed frame: the
`catch` only logs. A `stats` frame with a payload records it (when
`trackLastMessage` is on) and invokes `onMessage`; a `pong` updates the
measured latency; anything else falls through. -/
def onMessageEffect (parsed : Option WebSocketMessage) (now : Nat)
    (s : HookState) : HookState × List HookCallback :=
  match parsed with
  | none => (s, [])
  | some m =>
      match m.type, m.data with
      | .stats, some d =>
          ({ s with lastMessage := if s.trackLastMessage then some d else s.lastMessage },
           [.cbMessage d])
      | .stats, none => (s, [])
      | .pong, _ =>
          (if s.lastPingTime > 0 then { s with latency := some (now - s.lastPingTime) } else s,
           [])
      | .ping, _ => (s, [])

/-- Body of `ws.onclose` (lines 197-215): set status disconnected,
invoke `onDisconnect`, clear the ping interval, schedule a reconnect
after the backoff delay, advance the attempt counter. -/
def onCloseEffect (s : HookState) : HookState × List HookCallback :=
  ({ s with status := .disconnected, pingInterval := false,
            reconnectTimer := some (backoffDelay s.reconnectAttempts),
            reconnectAttempts := s.reconnectAttempts + 1 },
   [.cbDisconnect])

/-- Body of `ws.onerror` (lines 217-221): set status error, invoke
`onError`. -/
def onErrorEffect (s : HookState) : HookState × List HookCallback :=
  ({ s with status := .error }, [.cbError])

/-- A transport event delivered to a given socket. The message event
carries the parse outcome and the current clock. -/
inductive WsEvent
  | evOpen
  | evMessage (parsed : Option WebSocketMessage) (now : Nat)
  | evClose
  | evError
deriving DecidableEq, Repr

/-- Delivery of a transport event through a socket's handler slots: the
corresponding handler body runs only if its slot is still attached;
a detached slot makes the event a no-op. -/
def deliver (sk : Socket) (e : WsEvent) (s : HookState) :
    HookState × List HookCallback :=
  match e with
  | .evOpen => if sk.onopen then onOpenEffect s else (s, [])
  | .evMessage p now => if sk.onmessage then onMessageEffect p now s else (s, [])
  | .evClose => if sk.onclose then onCloseEffect s else (s, [])
  | .evError => if sk.onerror then onErrorEffect s else (s, [])

/-- Handler detachment performed by `cleanup` (lines 138-141). -/
def detachHandlers (sk : Socket) : Socket :=
  { sk with onopen := false, onmessage := false, onclose := false, onerror := false }

/-- The `cleanup` callback (lines 126-145): cancel the reconnect timer
and ping interval, nullify every handler of the current socket BEFORE
closing it, drop the reference. The second component is the superseded
socket as it continues to exist in the runtime (handlers detached,
transport closed). -/
def cleanup (s : HookState) : HookState × Option Socket :=
  ({ s with reconnectTimer := none, pingInterval := false, socket := none },
   s.socket.map (fun sk => { detachHandlers sk with readyState := .closed }))

/-- Allocation of a fresh transport in `connect` (lines 154-161): set
status connecting, create the socket with all four handlers attached. -/
def mkConnection (s : HookState) : HookState :=
  { s with status := .connecting,
           socket := some { readyState := .connecting,
                            onopen := true, onmessage := true,
                            onclose := true, onerror := true } }

/-- The `connect` callback (lines 147-161): a no-op while the current
socket is OPEN or CONNECTING, otherwise allocate a fresh transport. -/
def connect (s : HookState) : HookState :=
  match s.socket with
  | some sk =>
      if sk.readyState = .openSt ∨ sk.readyState = .connecting then s
      else mkConnection s
  | none => mkConnection s

/-- The `disconnect` callback (lines 301-305): reset the attempt
counter, run `cleanup`, set status disconnected. The second component
is the superseded socket, as in `cleanup`. -/
def disconnect (s : HookState) : HookState × Option Socket :=
  let cl := cleanup { s with reconnectAttempts := 0 }
  ({ cl.1 with status := .disconnected }, cl.2)

/-- Body of the `enabled` effect when the hook is (re-)enabled
(lines 312-314): reset the attempt counter and connect. -/
def enableEffect (s : HookState) : HookState :=
  connect { s with reconnectAttempts := 0 }

/-- Sort direction for the paginated tables (`"asc" | "desc"`). -/
inductive SortOrder
  | asc
  | desc
deriving DecidableEq, Repr

/-- The caller-supplied view parameters of `useStatsWebSocket`
(`UseStatsWebSocketOptions`, lines 14-49), restricted to the fields the
subscribe frame carries. Every field is optional, exactly as in the
source. -/
structure SubscribeParams where
  backendId : Option Nat
  range : Option TimeRange
  minPushIntervalMs : Option Nat
  includeTrend : Option Bool
  trendMinutes : Option Nat
  trendBucketMinutes : Option Nat
  includeDeviceDetails : Option Bool
  deviceSourceIP : Option String
  deviceDetailLimit : Option Nat
  includeProxyDetails : Option Bool
  proxyChain : Option String
  proxyDetailLimit : Option Nat
  includeRuleDetails : Option Bool
  ruleName : Option String
  ruleDetailLimit : Option Nat
  includeRuleChainFlow : Option Bool
  includeDomainsPage : Option Bool
  domainsPageOffset : Option Nat
  domainsPageLimit : Option Nat
  domainsPageSortBy : Option String
  domainsPageSortOrder : Option SortOrder
  domainsPageSearch : Option String
  includeIPsPage : Option Bool
  ipsPageOffset : Option Nat
  ipsPageLimit : Option Nat
  ipsPageSortBy : Option String
  ipsPageSortOrder : Option SortOrder
  ipsPageSearch : Option String

/-- JSON values appearing in the subscribe frame. -/
inductive JValue
  | jnull
  | jbool (b : Bool)
  | jnum (n : Nat)
  | jstr (s : String)
deriving DecidableEq, Repr

/-- Serialization of a sort order. -/
def sortOrderJ : SortOrder → JValue
  | .asc => .jstr "asc"
  | .desc => .jstr "desc"

/-- One key of the object literal sent by the subscribe effect. -/
def kv (k : String) (v : Option JValue) : String × Option JValue := (k, v)

/-- Optional number field. -/
def optNum (k : String) (v : Option Nat) : String × Option JValue :=
  kv k (v.map JValue.jnum)

/-- Optional boolean field. -/
def optBool (k : String) (v : Option Bool) : String × Option JValue :=
  kv k (v.map JValue.jbool)

/-- Optional string field. -/
def optStr (k : String) (v : Option String) : String × Option JValue :=
  kv k (v.map JValue.jstr)

/-- Optional sort-order field. -/
def optSort (k : String) (v : Option SortOrder) : String × Option JValue :=
  kv k (v.map sortOrderJ)

/-- The object literal passed to `JSON.stringify` in the subscribe
effect (lines 235-267), key by key in source order. A `none` value is a
key whose JavaScript value is `undefined` (the caller left the option
unset); `start`/`end` come from `range?.start` / `range?.end`. -/
def rawSubscribe (ts : String) (p : SubscribeParams) :
    List (String × Option JValue) :=
  [kv "type" (some (JValue.jstr "subscribe")),
   optNum "backendId" p.backendId,
   optNum "start" (p.range.map TimeRange.start),
   optNum "end" (p.range.map TimeRange.«end»),
   optNum "minPushIntervalMs" p.minPushIntervalMs,
   optBool "includeTrend" p.includeTrend,
   optNum "trendMinutes" p.trendMinutes,
   optNum "trendBucketMinutes" p.trendBucketMinutes,
   optBool "includeDeviceDetails" p.includeDeviceDetails,
   optStr "deviceSourceIP" p.deviceSourceIP,
   optNum "deviceDetailLimit" p.deviceDetailLimit,
   optBool "includeProxyDetails" p.includeProxyDetails,
   optStr "proxyChain" p.proxyChain,
   optNum "proxyDetailLimit" p.proxyDetailLimit,
   optBool "includeRuleDetails" p.includeRuleDetails,
   optStr "ruleName" p.ruleName,
   optNum "ruleDetailLimit" p.ruleDetailLimit,
   optBool "includeRuleChainFlow" p.includeRuleChainFlow,
   optBool "includeDomainsPage" p.includeDomainsPage,
   optNum "domainsPageOffset" p.domainsPageOffset,
   optNum "domainsPageLimit" p.domainsPageLimit,
   optStr "domainsPageSortBy" p.domainsPageSortBy,
   optSort "domainsPageSortOrder" p.domainsPageSortOrder,
   optStr "domainsPageSearch" p.domainsPageSearch,
   optBool "includeIPsPage" p.includeIPsPage,
   optNum "ipsPageOffset" p.ipsPageOffset,
   optNum "ipsPageLimit" p.ipsPageLimit,
   optStr "ipsPageSortBy" p.ipsPageSortBy,
   optSort "ipsPageSortOrder" p.ipsPageSortOrder,
   optStr "ipsPageSearch" p.ipsPageSearch,
   kv "timestamp" (some (JValue.jstr ts))]

/-- The serialized subscribe frame: `JSON.stringify` keeps exactly the
keys whose value is not `undefined`. -/
def encodeSubscribe (ts : String) (p : SubscribeParams) :
    List (String × JValue) :=
  (rawSubscribe ts p).filterMap (fun kv => kv.2.map (fun v => (kv.1, v)))

/-- Whether a serialized frame contains a key. -/
def hasKey (k : String) (l : List (String × JValue)) : Bool :=
  l.any (fun kv => kv.1 == k)

/-- An encoded outbound frame. -/
abbrev Frame := List (String × JValue)

/-- State visible to the subscribe effect (lines 229-299): the current
view parameters (its dependencies), the connection status and whether
the transport is OPEN, and the clock string used for the `timestamp`
field. -/
structure SubState where
  params : SubscribeParams
  status : ConnectionStatus
  wsOpen : Bool
  timestamp : String

/-- One run of the subscribe effect body (lines 230-267): bail out
unless the status is connected, the transport is OPEN and a backend id
is set; otherwise send exactly one subscribe frame with the current
parameters. -/
def subscribeEffectRun (s : SubState) : List Frame :=
  if s.status ≠ ConnectionStatus.connected then []
  else if s.wsOpen = false then []
  else match s.params.backendId with
    | none => []
    | some _ => [encodeSubscribe s.timestamp s.params]

/-- Render-loop events that re-run the subscribe effect: a change of
the view parameters (all of them are dependencies, lines 268-299), or
the status flipping to connected when `ws.onopen` fires (status is a
dependency too, and the transport is OPEN at that point). -/
inductive UiEvent
  | setParams (p : SubscribeParams)
  | connectionOpened

/-- One event step: update the effect's dependencies, then re-run the
effect; returns the frames it sent. -/
def stepUi (s : SubState) : UiEvent → SubState × List Frame
  | .setParams p =>
      let s' := { s with params := p }
      (s', subscribeEffectRun s')
  | .connectionOpened =>
      let s' := { s with status := .connected, wsOpen := true }
      (s', subscribeEffectRun s')

/-- Folding a sequence of events, accumulating all frames sent. -/
def runEvents (s : SubState) : List UiEvent → SubState × List Frame
  | [] => (s, [])
  | e :: es =>
      let r1 := stepUi s e
      let r2 := runEvents r1.1 es
      (r2.1, r1.2 ++ r2.2)

/-- Time presets of the dashboard (`TimePreset`, part_000 line 110). -/
inductive TimePreset
  | p1m
  | p5m
  | p15m
  | p30m
  | p24h
  | p7d
  | p30d
  | today
  | custom
deriving DecidableEq, Repr

/-- Rolling-preset predicate (part_000 lines 114-116): every preset but
`custom` is rolling. -/
def isRollingTimePreset : TimePreset → Bool
  | .custom => false
  | _ => true

/-- Modelled from the spec: nominal length of each preset window in
milliseconds, used by `getPresetTimeRange` (defined in `lib/api`, whose
source is not included). -/
def presetDurationMs : TimePreset → Nat
  | .p1m => 60000
  | .p5m => 300000
  | .p15m => 900000
  | .p30m => 1800000
  | .p24h => 86400000
  | .p7d => 604800000
  | .p30d => 2592000000
  | .today => 0
  | .custom => 0

/-- Modelled from the spec: `getPresetTimeRange` (in `lib/api`, not
included in the sources) derives the window bounds of a preset from the
current clock; a rolling preset "last N" yields `[now - N, now]` and
`today` starts at the current midnight, so re-evaluating it later
advances the bounds. -/
def getPresetTimeRange (now : Nat) (p : TimePreset) : TimeRange :=
  match p with
  | .today => { start := now - now % 86400000, «end» := now }
  | _ => { start := now - presetDurationMs p, «end» := now }

/-- The dashboard page state the arbitration logic reads (part_000):
the auto-refresh toggle, active tab, active backend, the hook's status
and last pushed summary (`wsStatus` / `wsSummary`), the time preset and
range, and the refresh tick counter. -/
structure DashboardState where
  autoRefresh : Bool
  activeTab : String
  activeBackendId : Option Nat
  wsStatus : ConnectionStatus
  wsSummary : Option StatsSummary
  timePreset : TimePreset
  timeRange : TimeRange
  autoRefreshTick : Nat
deriving DecidableEq, Repr

/-- Push allow-list of tabs (part_000 lines 351-356): the
summary-bearing tabs driven by the WebSocket feed. -/
def isWsSummaryTab (tab : String) : Bool :=
  tab == "overview" || tab == "domains" || tab == "countries" ||
  tab == "proxies" || tab == "devices"

/-- `wsEnabled` (part_000 line 377). -/
def wsEnabled (s : DashboardState) : Bool :=
  s.autoRefresh && isWsSummaryTab s.activeTab && s.activeBackendId.isSome

/-- `wsConnected` (part_000 line 406). -/
def wsConnected (s : DashboardState) : Bool :=
  s.wsStatus == .connected

/-- `wsRealtimeActive` (part_000 line 407). -/
def wsRealtimeActive (s : DashboardState) : Bool :=
  wsEnabled s && wsConnected s

/-- `shouldReducePolling` (part_000 line 408). -/
def shouldReducePolling (s : DashboardState) : Bool :=
  wsRealtimeActive s

/-- `hasWsCountries` (part_000 lines 409-412): realtime active, the
last pushed summary embeds a country breakdown, and the tab shows
countries. -/
def hasWsCountries (s : DashboardState) : Bool :=
  wsRealtimeActive s && (s.wsSummary.bind StatsSummary.countryStats).isSome &&
  (s.activeTab == "overview" || s.activeTab == "countries")

/-- `needsCountries` (part_000 line 414). -/
def needsCountries (s : DashboardState) : Bool :=
  s.activeTab == "overview" || s.activeTab == "countries"

/-- `enabled` of the summary pull query (part_000 line 419). -/
def summaryQueryEnabled (s : DashboardState) : Bool :=
  s.activeBackendId.isSome && !(wsEnabled s && wsConnected s)

/-- `enabled` of the countries pull query (part_000 line 426). -/
def countriesQueryEnabled (s : DashboardState) : Bool :=
  s.activeBackendId.isSome && needsCountries s && !hasWsCountries s

/-- Modelled from the spec: the query-cache keys built by
`getSummaryQueryKey` / `getCountriesQueryKey` / `getDevicesQueryKey`
(`lib/stats-query-keys`, not included in the sources) — one key per
view kind, parameterized by backend id, page limit and time range. -/
inductive CacheKey
  | summary (backendId : Nat) (range : TimeRange)
  | countries (backendId : Nat) (limit : Nat) (range : TimeRange)
  | devices (backendId : Nat) (limit : Nat) (range : TimeRange)
deriving DecidableEq, Repr

/-- Values stored in the query cache under the three key kinds. -/
inductive CacheValue
  | summaryData (v : StatsSummary)
  | countriesData (v : CountryBreakdown)
  | devicesData (v : DeviceBreakdown)
deriving DecidableEq, Repr

/-- The react-query cache, as a keyed store. -/
abbrev Cache := CacheKey → Option CacheValue

/-- `queryClient.setQueryData` at one key. -/
def setQueryData (c : Cache) (k : CacheKey) (v : CacheValue) : Cache :=
  fun k' => if k' = k then some v else c k'

/-- The functional update `{...previous, ...stats}` of the summary
entry (part_000 lines 387-390): spread semantics keep a previous
optional field when the new payload leaves it out. -/
def mergeSummary (previous : Option StatsSummary) (stats : StatsSummary) :
    StatsSummary :=
  match previous with
  | none => stats
  | some prev =>
      { totalTraffic := stats.totalTraffic,
        countryStats := stats.countryStats.orElse (fun _ => prev.countryStats),
        deviceStats := stats.deviceStats.orElse (fun _ => prev.deviceStats) }

/-- The previous summary value read by the functional update. -/
def prevSummary (c : Cache) (b : Nat) (range : TimeRange) :
    Option StatsSummary :=
  match c (.summary b range) with
  | some (.summaryData v) => some v
  | _ => none

/-- The dashboard's WebSocket `onMessage` callback (part_000
lines 382-404): bail out without an active backend; otherwise bump the
refresh tick, merge the pushed summary into the summary entry, and fan
the embedded country/device breakdowns out into their own entries
(page limit 50) when present. -/
def dashboardOnMessage (activeBackendId : Option Nat) (range : TimeRange)
    (stats : StatsSummary) (c : Cache) (tick : Nat) : Cache × Nat :=
  match activeBackendId with
  | none => (c, tick)
  | some b =>
      let c1 := setQueryData c (.summary b range)
        (.summaryData (mergeSummary (prevSummary c b range) stats))
      let c2 := match stats.countryStats with
        | some cs => setQueryData c1 (.countries b 50 range) (.countriesData cs)
        | none => c1
      let c3 := match stats.deviceStats with
        | some ds => setQueryData c2 (.devices b 50 range) (.devicesData ds)
        | none => c2
      (c3, tick + 1)

/-- Interval installed by the rolling-preset effect (part_000
lines 530-539); `none` when the effect bails out (auto-refresh off or a
non-rolling preset). On the rules tab the interval is 30000, otherwise
30000 when polling is reduced and 5000 by default. -/
def rollingPollInterval (s : DashboardState) : Option Nat :=
  if !s.autoRefresh || !isRollingTimePreset s.timePreset then none
  else some (if s.activeTab == "rules" then 30000
             else if shouldReducePolling s then 30000 else 5000)

/-- Interval installed by the fixed-preset effect (part_000
lines 541-550); `none` when the effect bails out (auto-refresh off, a
rolling preset, or WS realtime active). -/
def fixedPollInterval (s : DashboardState) : Option Nat :=
  if !s.autoRefresh || isRollingTimePreset s.timePreset || wsRealtimeActive s
  then none
  else some 5000

/-- Body of one rolling-preset tick (part_000 lines 534-537): bump the
refresh tick and re-derive the window from the current clock, which
both advances the bounds and (through the changed query keys) causes a
re-fetch. -/
def rollingTick (now : Nat) (s : DashboardState) : DashboardState :=
  { s with autoRefreshTick := s.autoRefreshTick + 1,
           timeRange := getPresetTimeRange now s.timePreset }

/-- Body of one fixed-preset tick (part_000 lines 545-548): bump the
refresh tick and invalidate the stats queries (the Bool records that
the invalidation — a re-fetch — was issued); the window bounds are left
untouched. -/
def fixedTick (s : DashboardState) : DashboardState × Bool :=
  ({ s with autoRefreshTick := s.autoRefreshTick + 1 }, true)

/-- Predicate on serialized values: true unless the value is JSON
`null`. -/
def nonNull : JValue → Bool
  | .jnull => false
  | _ => true

/-- A subscription descriptor with every optional field unset (the
hook called with `useStatsWebSocket({})`). -/
def emptyParams : SubscribeParams :=
  { backendId := none, range := none, minPushIntervalMs := none,
    includeTrend := none, trendMinutes := none, trendBucketMinutes := none,
    includeDeviceDetails := none, deviceSourceIP := none,
    deviceDetailLimit := none, includeProxyDetails := none,
    proxyChain := none, proxyDetailLimit := none, includeRuleDetails := none,
    ruleName := none, ruleDetailLimit := none, includeRuleChainFlow := none,
    includeDomainsPage := none, domainsPageOffset := none,
    domainsPageLimit := none, domainsPageSortBy := none,
    domainsPageSortOrder := none, domainsPageSearch := none,
    includeIPsPage := none, ipsPageOffset := none, ipsPageLimit := none,
    ipsPageSortBy := none, ipsPageSortOrder := none, ipsPageSearch := none }

/-- Sample subscription A: backend 1 with a trend request. -/
def paramsA : SubscribeParams :=
  { emptyParams with backendId := some 1, includeTrend := some true,
                     trendMinutes := some 60 }

/-- Sample subscription B: backend 1 with an explicit range. -/
def paramsB : SubscribeParams :=
  { emptyParams with backendId := some 1,
                     range := some { start := 0, «end» := 3600000 } }

/-- Sample subscription C: backend 2 with a device detail request. -/
def paramsC : SubscribeParams :=
  { emptyParams with backendId := some 2,
                     includeDeviceDetails := some true,
                     deviceDetailLimit := some 20 }

/-- A dashboard state on the overview tab, hook enabled, connection
just connected, and no push delivery received yet. -/
def sConnectedNoDelivery : DashboardState :=
  { autoRefresh := true, activeTab := "overview", activeBackendId := some 1,
    wsStatus := .connected, wsSummary := none, timePreset := .p24h,
    timeRange := { start := 0, «end» := 86400000 }, autoRefreshTick := 0 }

/-- A dashboard state on the countries tab with a pushed summary that
embeds a country breakdown. -/
def sCountriesDelivered : DashboardState :=
  { autoRefresh := true, activeTab := "countries", activeBackendId := some 1,
    wsStatus := .connected,
    wsSummary := some { totalTraffic := 42,
                        countryStats := some [("US", 10), ("DE", 5)],
                        deviceStats := none },
    timePreset := .p24h,
    timeRange := { start := 0, «end» := 86400000 }, autoRefreshTick := 0 }

/-- A dashboard state on the rules tab with a rolling preset and the
push channel not authoritative (the rules tab is outside the WS
allow-list). -/
def sRulesRolling : DashboardState :=
  { autoRefresh := true, activeTab := "rules", activeBackendId := some 1,
    wsStatus := .disconnected, wsSummary := none, timePreset := .p24h,
    timeRange := { start := 0, «end» := 86400000 }, autoRefreshTick := 0 }

/-- A dashboard state on the overview tab, rolling preset, push
authoritative. -/
def sReducedOverview : DashboardState :=
  { autoRefresh := true, activeTab := "overview", activeBackendId := some 1,
    wsStatus := .connected, wsSummary := none, timePreset := .p5m,
    timeRange := { start := 0, «end» := 300000 }, autoRefreshTick := 0 }

/-- A dashboard state on the overview tab, rolling preset, push not
authoritative (disconnected). -/
def sFastOverview : DashboardState :=
  { autoRefresh := true, activeTab := "overview", activeBackendId := some 1,
    wsStatus := .disconnected, wsSummary := none, timePreset := .p5m,
    timeRange := { start := 0, «end» := 300000 }, autoRefreshTick := 0 }

end ClashMaster

namespace ClashMaster

/-- C2: within a failure streak the n-th failure (counting from 0, i.e.
with `attempts = n`) schedules `min(3000 * 2^n, 30000)` ms; the delay
is non-decreasing in the attempt counter; a success resets the counter
to 0, so the first failure after any success schedules the base
3000 ms; the first six delays are 3000, 6000, 12000, 24000, 30000,
30000. -/
theorem reconnect_backoff_spec (n m : Nat) (h : n ≤ m) (s : BackoffState) :
    stepOutcome s .failure = (⟨s.attempts + 1⟩, some (backoffDelay s.attempts)) ∧
    stepOutcome s .success = (⟨0⟩, none) ∧
    backoffDelay n ≤ backoffDelay m ∧
    (stepOutcome (stepOutcome s .success).1 .failure).2 = some 3000 ∧
    (List.range 6).map backoffDelay = [3000, 6000, 12000, 24000, 30000, 30000] := by
  refine ⟨rfl, rfl, ?_, rfl, by decide⟩
  have hpow : (2 : Nat) ^ n ≤ 2 ^ m := Nat.pow_le_pow_right (by decide) h
  exact min_le_min (Nat.mul_le_mul (le_refl 3000) hpow) (le_refl _)

/-- Witness for `reconnect_backoff_spec` at n = 2, m = 4 and a state
with 7 prior attempts. -/
theorem reconnect_backoff_spec_witness :
    stepOutcome ⟨7⟩ .failure = (⟨8⟩, some (backoffDelay 7)) ∧
    stepOutcome ⟨7⟩ .success = (⟨0⟩, none) ∧
    backoffDelay 2 ≤ backoffDelay 4 ∧
    (stepOutcome (stepOutcome ⟨7⟩ .success).1 .failure).2 = some 3000 ∧
    (List.range 6).map backoffDelay = [3000, 6000, 12000, 24000, 30000, 30000] :=
  reconnect_backoff_spec 2 4 (by decide) ⟨7⟩

/-- C8: an inbound frame whose payload fails to parse is discarded: the
hook state (status, lastMessage, latency, timers, socket) is returned
unchanged and no consumer callback is invoked, so the connection is not
torn down. -/
theorem malformed_frame_discarded (now : Nat) (s : HookState) :
    onMessageEffect none now s = (s, []) := rfl

/-- C10: a well-formed `stats` frame whose `data` payload is absent is
ignored: the hook state is returned unchanged (in particular
`lastMessage` and `status`) and the `onMessage` callback is not
invoked. -/
theorem stats_without_data_ignored (backendId : Option Nat) (ts : String)
    (now : Nat) (s : HookState) :
    onMessageEffect (some { type := .stats, backendId := backendId,
                            data := none, timestamp := ts }) now s = (s, []) := rfl

/-- C4: `cleanup` detaches every handler of the socket it supersedes
before closing it, so a late transport event (open, message, close or
error) delivered through the superseded socket afterwards mutates no
shared state and invokes no callback — in particular after a newer
connection has begun connecting. -/
theorem stale_handler_no_op (s : HookState) (sk : Socket) (e : WsEvent)
    (s2 : HookState) (h : (cleanup s).2 = some sk) :
    deliver sk e s2 = (s2, []) := by
  rcases hs : s.socket with _ | sk0
  · simp [cleanup, hs] at h
  · simp [cleanup, hs] at h
    cases e <;> simp [deliver, ← h, detachHandlers]

/-- Witness for `stale_handler_no_op`: a concrete hook state with a
live socket; the late close event delivered after cleanup (and after a
newer connection has begun connecting) is a no-op. -/
theorem stale_handler_no_op_witness :
    deliver { readyState := .closed, onopen := false, onmessage := false,
              onclose := false, onerror := false }
      .evClose
      (mkConnection { status := .disconnected, lastMessage := none,
                      latency := none, reconnectTimer := none,
                      pingInterval := false, lastPingTime := 0,
                      reconnectAttempts := 3, trackLastMessage := true,
                      socket := none })
      = (mkConnection { status := .disconnected, lastMessage := none,
                        latency := none, reconnectTimer := none,
                        pingInterval := false, lastPingTime := 0,
                        reconnectAttempts := 3, trackLastMessage := true,
                        socket := none }, []) :=
  stale_handler_no_op
    { status := .connected, lastMessage := none, latency := none,
      reconnectTimer := some 3000, pingInterval := true, lastPingTime := 0,
      reconnectAttempts := 2, trackLastMessage := true,
      socket := some { readyState := .openSt, onopen := true,
                       onmessage := true, onclose := true, onerror := true } }
    _ .evClose _ rfl

/-- C9: `disconnect` resets the reconnect attempt counter to zero in
addition to cancelling both timers, detaching and dropping the socket
and setting status disconnected; therefore after a re-enable
(`enableEffect`) the counter is still zero and the first failure of the
fresh streak schedules the base 3000 ms delay, no matter how many
failures preceded the disable. -/
theorem disconnect_resets_backoff (s : HookState) :
    (disconnect s).1.reconnectAttempts = 0 ∧
    (disconnect s).1.reconnectTimer = none ∧
    (disconnect s).1.pingInterval = false ∧
    (disconnect s).1.socket = none ∧
    (disconnect s).1.status = .disconnected ∧
    (enableEffect (disconnect s).1).reconnectAttempts = 0 ∧
    (onCloseEffect (enableEffect (disconnect s).1)).1.reconnectTimer = some 3000 :=
  ⟨rfl, rfl, rfl, rfl, rfl, rfl, rfl⟩

/-- Helper: `runEvents` distributes over concatenation of event lists. -/
theorem runEvents_append (s : SubState) (es1 es2 : List UiEvent) :
    runEvents s (es1 ++ es2) =
      ((runEvents (runEvents s es1).1 es2).1,
       (runEvents s es1).2 ++ (runEvents (runEvents s es1).1 es2).2) := by
  induction es1 generalizing s with
  | nil => simp [runEvents]
  | cons e es ih => simp [runEvents, ih]

/-- Helper: while the status is not connected, a sequence of parameter
changes sends nothing and leaves the latest parameters installed. -/
theorem runEvents_setParams_disconnected :
    ∀ (ps : List SubscribeParams) (s0 : SubState),
      s0.status ≠ ConnectionStatus.connected →
      runEvents s0 (ps.map UiEvent.setParams) =
        ({ s0 with params := ps.foldl (fun _ p => p) s0.params }, []) := by
  intro ps
  induction ps with
  | nil => intro s0 _; simp [runEvents]
  | cons p ps ih =>
      intro s0 h0
      have hrun : subscribeEffectRun { s0 with params := p } = [] := by
        simp only [subscribeEffectRun]
        rw [if_pos]
        exact h0
      have hrest := ih { s0 with params := p } h0
      simp [runEvents, stepUi, hrun, hrest]

/-- C3: if the subscription parameters change any number of times
(ending with `pC`) while no connection is open, no subscribe frame is
sent; when the connection then opens, exactly one subscribe frame is
sent and it encodes the latest parameters `pC`. -/
theorem coalesced_subscribe_on_connect (s0 : SubState)
    (ps : List SubscribeParams) (pC : SubscribeParams) (b : Nat)
    (h0 : s0.status ≠ ConnectionStatus.connected)
    (hb : pC.backendId = some b) :
    (runEvents s0 ((ps ++ [pC]).map UiEvent.setParams)).2 = [] ∧
    (runEvents s0 ((ps ++ [pC]).map UiEvent.setParams ++
        [UiEvent.connectionOpened])).2
      = [encodeSubscribe s0.timestamp pC] := by
  have h1 := runEvents_setParams_disconnected (ps ++ [pC]) s0 h0
  have hfold : (ps ++ [pC]).foldl (fun _ p => p) s0.params = pC := by
    simp [List.foldl_append]
  rw [hfold] at h1
  refine ⟨by rw [h1], ?_⟩
  rw [runEvents_append, h1]
  simp [runEvents, stepUi, subscribeEffectRun, hb]

/-- Witness for `coalesced_subscribe_on_connect`: applying
subscriptions A, B while disconnected, then C, then opening the
connection sends exactly one subscribe frame, encoding C. -/
theorem coalesced_subscribe_on_connect_witness :
    (runEvents { params := emptyParams, status := .disconnected,
                 wsOpen := false, timestamp := "t0" }
        (([paramsA, paramsB] ++ [paramsC]).map UiEvent.setParams)).2 = [] ∧
    (runEvents { params := emptyParams, status := .disconnected,
                 wsOpen := false, timestamp := "t0" }
        (([paramsA, paramsB] ++ [paramsC]).map UiEvent.setParams ++
          [UiEvent.connectionOpened])).2
      = [encodeSubscribe "t0" paramsC] :=
  coalesced_subscribe_on_connect
    { params := emptyParams, status := .disconnected,
      wsOpen := false, timestamp := "t0" }
    [paramsA, paramsB] paramsC 2 (by decide) rfl

/-- Helper: key membership in the serialized frame reduces to the raw
object literal having that key bound to a non-`undefined` value. -/
theorem hasKey_filterMap (l : List (String × Option JValue)) (k : String) :
    hasKey k (l.filterMap (fun kv => kv.2.map (fun v => (kv.1, v)))) =
      l.any (fun kv => kv.1 == k && kv.2.isSome) := by
  induction l with
  | nil => rfl
  | cons x l ih =>
      obtain ⟨k', v?⟩ := x
      cases v? with
      | none => simpa [hasKey, List.filterMap_cons] using ih
      | some v =>
          simp [hasKey, List.filterMap_cons] at ih ⊢
          rw [ih]

/-- Helper: a predicate on serialized values holds of the whole frame
iff it holds of every bound value of the raw object literal. -/
theorem all_snd_filterMap (l : List (String × Option JValue)) (q : JValue → Bool) :
    ((l.filterMap (fun kv => kv.2.map (fun v => (kv.1, v)))).all
        (fun kv => q kv.2)) =
      l.all (fun kv => kv.2.all q) := by
  induction l with
  | nil => rfl
  | cons x l ih =>
      obtain ⟨k', v?⟩ := x
      cases v? <;> simp [List.filterMap_cons, ih]

/-- Helper: `Option.all` after a map. -/
theorem all_map_opt (o : Option α) (f : α → β) (q : β → Bool) :
    (o.map f).all q = o.all (fun x => q (f x)) := by
  cases o <;> rfl

/-- Helper: `Option.all` of a constantly-true predicate. -/
theorem option_all_true (o : Option α) : o.all (fun _ => true) = true := by
  cases o <;> rfl

/-- Helper: a serialized sort order is never `null`. -/
theorem nonNull_sortOrderJ (x : SortOrder) : nonNull (sortOrderJ x) = true := by
  cases x <;> rfl

/-- Helper: a serialized number is never `null`. -/
theorem nonNull_jnum (n : Nat) : nonNull (JValue.jnum n) = true := rfl

/-- Helper: a serialized boolean is never `null`. -/
theorem nonNull_jbool (b : Bool) : nonNull (JValue.jbool b) = true := rfl

/-- Helper: a serialized string is never `null`. -/
theorem nonNull_jstr (v : String) : nonNull (JValue.jstr v) = true := rfl

/-- C7: the serialized subscribe frame contains a key for an optional
detail field exactly when the caller set it (an unset option leaves no
key at all), and no value in the frame is JSON `null`. -/
theorem subscribe_frame_omits_unset (ts : String) (p : SubscribeParams) :
    hasKey "backendId" (encodeSubscribe ts p) = p.backendId.isSome ∧
    hasKey "start" (encodeSubscribe ts p) = p.range.isSome ∧
    hasKey "end" (encodeSubscribe ts p) = p.range.isSome ∧
    hasKey "minPushIntervalMs" (encodeSubscribe ts p) = p.minPushIntervalMs.isSome ∧
    hasKey "includeTrend" (encodeSubscribe ts p) = p.includeTrend.isSome ∧
    hasKey "trendMinutes" (encodeSubscribe ts p) = p.trendMinutes.isSome ∧
    hasKey "trendBucketMinutes" (encodeSubscribe ts p) = p.trendBucketMinutes.isSome ∧
    hasKey "includeDeviceDetails" (encodeSubscribe ts p) = p.includeDeviceDetails.isSome ∧
    hasKey "deviceSourceIP" (encodeSubscribe ts p) = p.deviceSourceIP.isSome ∧
    hasKey "deviceDetailLimit" (encodeSubscribe ts p) = p.deviceDetailLimit.isSome ∧
    hasKey "includeProxyDetails" (encodeSubscribe ts p) = p.includeProxyDetails.isSome ∧
    hasKey "proxyChain" (encodeSubscribe ts p) = p.proxyChain.isSome ∧
    hasKey "proxyDetailLimit" (encodeSubscribe ts p) = p.proxyDetailLimit.isSome ∧
    hasKey "includeRuleDetails" (encodeSubscribe ts p) = p.includeRuleDetails.isSome ∧
    hasKey "ruleName" (encodeSubscribe ts p) = p.ruleName.isSome ∧
    hasKey "ruleDetailLimit" (encodeSubscribe ts p) = p.ruleDetailLimit.isSome ∧
    hasKey "includeRuleChainFlow" (encodeSubscribe ts p) = p.includeRuleChainFlow.isSome ∧
    hasKey "includeDomainsPage" (encodeSubscribe ts p) = p.includeDomainsPage.isSome ∧
    hasKey "domainsPageOffset" (encodeSubscribe ts p) = p.domainsPageOffset.isSome ∧
    hasKey "domainsPageLimit" (encodeSubscribe ts p) = p.domainsPageLimit.isSome ∧
    hasKey "domainsPageSortBy" (encodeSubscribe ts p) = p.domainsPageSortBy.isSome ∧
    hasKey "domainsPageSortOrder" (encodeSubscribe ts p) = p.domainsPageSortOrder.isSome ∧
    hasKey "domainsPageSearch" (encodeSubscribe ts p) = p.domainsPageSearch.isSome ∧
    hasKey "includeIPsPage" (encodeSubscribe ts p) = p.includeIPsPage.isSome ∧
    hasKey "ipsPageOffset" (encodeSubscribe ts p) = p.ipsPageOffset.isSome ∧
    hasKey "ipsPageLimit" (encodeSubscribe ts p) = p.ipsPageLimit.isSome ∧
    hasKey "ipsPageSortBy" (encodeSubscribe ts p) = p.ipsPageSortBy.isSome ∧
    hasKey "ipsPageSortOrder" (encodeSubscribe ts p) = p.ipsPageSortOrder.isSome ∧
    hasKey "ipsPageSearch" (encodeSubscribe ts p) = p.ipsPageSearch.isSome ∧
    hasKey "type" (encodeSubscribe ts p) = true ∧
    hasKey "timestamp" (encodeSubscribe ts p) = true ∧
    (encodeSubscribe ts p).all (fun kvp => nonNull kvp.2) = true := by
  have hnull : (encodeSubscribe ts p).all (fun kvp => nonNull kvp.2) = true := by
    rw [encodeSubscribe, all_snd_filterMap]
    simp [rawSubscribe, kv, optNum, optBool, optStr, optSort, all_map_opt,
          nonNull_jnum, nonNull_jbool, nonNull_jstr, nonNull_sortOrderJ,
          option_all_true]
  refine ⟨?_, ?_, ?_, ?_, ?_, ?_, ?_, ?_, ?_, ?_, ?_, ?_, ?_, ?_, ?_, ?_,
          ?_, ?_, ?_, ?_, ?_, ?_, ?_, ?_, ?_, ?_, ?_, ?_, ?_, ?_, ?_, hnull⟩ <;>
    · rw [encodeSubscribe, hasKey_filterMap]
      simp [rawSubscribe, kv, optNum, optBool, optStr, optSort]

/-- C6: on a push payload for backend `b` and range `range`, the
summary cache entry is rewritten with the merge of the previous entry
and the payload; the countries (resp. devices) entry at page limit 50
is rewritten with the embedded breakdown exactly when the payload
carries one, and is left untouched otherwise. -/
theorem push_fanout_cache_update (b : Nat) (range : TimeRange)
    (stats : StatsSummary) (c : Cache) (tick : Nat) :
    ((dashboardOnMessage (some b) range stats c tick).1 (.summary b range)
        = some (.summaryData (mergeSummary (prevSummary c b range) stats))) ∧
    ((dashboardOnMessage (some b) range stats c tick).1 (.countries b 50 range)
        = match stats.countryStats with
          | some cs => some (.countriesData cs)
          | none => c (.countries b 50 range)) ∧
    ((dashboardOnMessage (some b) range stats c tick).1 (.devices b 50 range)
        = match stats.deviceStats with
          | some ds => some (.devicesData ds)
          | none => c (.devices b 50 range)) ∧
    (dashboardOnMessage (some b) range stats c tick).2 = tick + 1 := by
  rcases hcs : stats.countryStats with _ | cs <;>
    rcases hds : stats.deviceStats with _ | ds <;>
      simp [dashboardOnMessage, hcs, hds, setQueryData]

/-- C1 counterexample: with the hook enabled on the overview tab (a
view in the push allow-list) and the connection just connected, no push
delivery has been received yet (`wsSummary = none`), but the summary
pull query is already disabled — suppression does not wait for a first
push delivery since the current subscription. -/
theorem pull_suppressed_without_delivery_cex :
    wsConnected sConnectedNoDelivery = true ∧
    isWsSummaryTab sConnectedNoDelivery.activeTab = true ∧
    sConnectedNoDelivery.wsSummary = none ∧
    summaryQueryEnabled sConnectedNoDelivery = false := by
  decide

/-- C1 amended: given an active backend, the summary pull query is
disabled exactly when the hook is enabled and the connection is
connected — no delivery condition; the countries pull query is disabled
exactly when the tab does not need countries or `hasWsCountries` holds;
and `hasWsCountries` (alone among the suppression conditions) does
require a delivered payload embedding a country breakdown, besides
realtime being active and a countries-bearing tab. -/
theorem pull_suppression_characterization (s : DashboardState)
    (h : s.activeBackendId.isSome = true) :
    (summaryQueryEnabled s = false ↔ (wsEnabled s && wsConnected s) = true) ∧
    (countriesQueryEnabled s = false ↔
      (needsCountries s = false ∨ hasWsCountries s = true)) ∧
    (hasWsCountries s = true ↔
      (wsRealtimeActive s = true ∧
       (s.wsSummary.bind StatsSummary.countryStats).isSome = true ∧
       needsCountries s = true)) := by
  refine ⟨?_, ?_, ?_⟩
  · simp [summaryQueryEnabled, h]
  · simp only [countriesQueryEnabled, h, Bool.true_and]
    cases hnc : needsCountries s <;> cases hhw : hasWsCountries s <;>
      simp [hnc, hhw]
  · simp [hasWsCountries, needsCountries, Bool.and_eq_true, and_assoc]

/-- Witness for `pull_suppression_characterization` on the countries
tab with a delivered country breakdown. -/
theorem pull_suppression_characterization_witness :
    (summaryQueryEnabled sCountriesDelivered = false ↔
      (wsEnabled sCountriesDelivered && wsConnected sCountriesDelivered) = true) ∧
    (countriesQueryEnabled sCountriesDelivered = false ↔
      (needsCountries sCountriesDelivered = false ∨
       hasWsCountries sCountriesDelivered = true)) ∧
    (hasWsCountries sCountriesDelivered = true ↔
      (wsRealtimeActive sCountriesDelivered = true ∧
       (sCountriesDelivered.wsSummary.bind StatsSummary.countryStats).isSome = true ∧
       needsCountries sCountriesDelivered = true)) :=
  pull_suppression_characterization sCountriesDelivered rfl

/-- C5 counterexample: on the rules tab with a rolling preset, push is
not authoritative (`wsRealtimeActive = false`), yet the rolling polling
interval is 30000 ms, not the fast 5000 ms default — the cadence is not
restored the moment push stops being authoritative. -/
theorem polling_not_restored_on_rules_cex :
    wsRealtimeActive sRulesRolling = false ∧
    isRollingTimePreset sRulesRolling.timePreset = true ∧
    sRulesRolling.autoRefresh = true ∧
    rollingPollInterval sRulesRolling = some 30000 := by
  decide

/-- C5 amended: a rolling-preset tick advances the window bounds (and
bumps the refresh tick, re-keying the queries), while a fixed-preset
tick only invalidates without touching the bounds; when push is
authoritative the rolling cadence is the reduced 30000 ms and
fixed-preset polling is suspended entirely; when push is not
authoritative the rolling cadence is the fast 5000 ms default on every
tab except rules, which always polls at 30000 ms. -/
theorem polling_cadence_spec (s : DashboardState) (now : Nat) :
    ((rollingTick now s).timeRange = getPresetTimeRange now s.timePreset ∧
     (rollingTick now s).autoRefreshTick = s.autoRefreshTick + 1) ∧
    ((fixedTick s).1.timeRange = s.timeRange ∧
     (fixedTick s).1.autoRefreshTick = s.autoRefreshTick + 1 ∧
     (fixedTick s).2 = true) ∧
    (wsRealtimeActive s = true → s.autoRefresh = true →
      isRollingTimePreset s.timePreset = true →
      rollingPollInterval s = some 30000) ∧
    (wsRealtimeActive s = false → (s.activeTab == "rules") = false →
      s.autoRefresh = true → isRollingTimePreset s.timePreset = true →
      rollingPollInterval s = some 5000) ∧
    (wsRealtimeActive s = true → fixedPollInterval s = none) := by
  refine ⟨⟨rfl, rfl⟩, ⟨rfl, rfl, rfl⟩, ?_, ?_, ?_⟩
  · intro h1 h2 h3
    simp [rollingPollInterval, h2, h3, shouldReducePolling, h1]
  · intro h1 h2 h3 h4
    simp [rollingPollInterval, h2, h3, h4, shouldReducePolling, h1]
  · intro h1
    simp [fixedPollInterval, h1]

/-- Witness for `polling_cadence_spec`: on the overview tab the rolling
interval is 30000 ms while push is authoritative and 5000 ms when it is
not, and fixed-preset polling is suspended while push is
authoritative. -/
theorem polling_cadence_spec_witness :
    rollingPollInterval sReducedOverview = some 30000 ∧
    rollingPollInterval sFastOverview = some 5000 ∧
    fixedPollInterval sReducedOverview = none :=
  ⟨(polling_cadence_spec sReducedOverview 0).2.2.1 (by decide) rfl rfl,
   (polling_cadence_spec sFastOverview 0).2.2.2.1 (by decide) (by decide) rfl rfl,
   (polling_cadence_spec sReducedOverview 0).2.2.2.2 (by decide)⟩

end ClashMaster
